import Mathlib

/-!
Shallow embedding of the Travel-Agent client (static script, main variant
`src/unnamed/part_000`): the trip form submit handler, the chat
`sendMessage` flow and the `addMessageToChat` helper, together with models
of the JavaScript primitives they use (`parseFloat`, `parseInt`,
`String.prototype.split(",")`, truthiness of optional string fields).
-/

namespace TravelAgent

/-- A JavaScript number as produced by `parseFloat` / `parseInt` on the
inputs in scope: either NaN or a finite decimal value (modelled as a
rational, which is exact for every finite decimal literal). -/
inductive JSNum where
  | nan : JSNum
  | num : ℚ → JSNum
deriving DecidableEq, Repr

/-- Characters treated as whitespace by the JS parsing builtins (ASCII
subset, which covers the form inputs in scope). -/
def jsWhitespace (c : Char) : Bool :=
  c = ' ' || c = '\t' || c = '\n' || c = '\r'

/-- Consume a maximal run of decimal digits from the front of the list,
returning the accumulated value, the number of digits consumed, and the
rest of the input.  Models the digit runs inside `parseFloat`/`parseInt`. -/
def parseDigits : List Char → ℕ → ℕ → ℕ × ℕ × List Char
  | [], acc, count => (acc, count, [])
  | c :: rest, acc, count =>
      if c.isDigit then parseDigits rest (acc * 10 + (c.toNat - 48)) (count + 1)
      else (acc, count, c :: rest)

/-- Model of the JS builtin `parseFloat`, after whitespace and sign have
been stripped: longest prefix of the form `digits [. digits] [e|E [sign]
digits]`; NaN when no digit is consumed before the exponent marker.
(`Infinity` inputs are out of scope for this client.) -/
def jsParseFloatCore (l : List Char) : JSNum :=
  let p1 := parseDigits l 0 0
  let ipart := p1.1
  let icount := p1.2.1
  let r1 := p1.2.2
  let p2 : ℕ × ℕ × List Char :=
    match r1 with
    | '.' :: rest => parseDigits rest 0 0
    | _ => (0, 0, r1)
  let fpart := p2.1
  let fcount := p2.2.1
  let r2 := p2.2.2
  if icount = 0 ∧ fcount = 0 then JSNum.nan
  else
    let base : ℚ := (ipart : ℚ) + (fpart : ℚ) / (10 ^ fcount : ℚ)
    match r2 with
    | [] => JSNum.num base
    | c :: rest =>
        if c = 'e' ∨ c = 'E' then
          let sr : Bool × List Char :=
            match rest with
            | '-' :: t => (true, t)
            | '+' :: t => (false, t)
            | t => (false, t)
          let p3 := parseDigits sr.2 0 0
          if p3.2.1 = 0 then JSNum.num base
          else JSNum.num (if sr.1 then base / 10 ^ p3.1 else base * 10 ^ p3.1)
        else JSNum.num base

/-- Model of the JS builtin `parseFloat`: skip leading whitespace, take an
optional sign, then parse a decimal literal prefix; NaN when none. -/
def jsParseFloat (s : String) : JSNum :=
  let l := s.data.dropWhile jsWhitespace
  match l with
  | '-' :: rest =>
      match jsParseFloatCore rest with
      | JSNum.nan => JSNum.nan
      | JSNum.num q => JSNum.num (-q)
  | '+' :: rest => jsParseFloatCore rest
  | _ => jsParseFloatCore l

/-- Model of the JS builtin `parseInt` with no radix argument on the inputs
in scope (no `0x` prefix, so radix 10): skip leading whitespace, optional
sign, then a maximal digit run; NaN when no digit is consumed. -/
def jsParseInt (s : String) : JSNum :=
  let l := s.data.dropWhile jsWhitespace
  let sr : Bool × List Char :=
    match l with
    | '-' :: t => (true, t)
    | '+' :: t => (false, t)
    | t => (false, t)
  let p := parseDigits sr.2 0 0
  if p.2.1 = 0 then JSNum.nan
  else JSNum.num (if sr.1 then -(p.1 : ℚ) else (p.1 : ℚ))

/-- Model of JS `String.prototype.trim` on the ASCII inputs in scope:
strip leading and trailing whitespace. -/
def jsTrim (s : String) : String :=
  String.mk (((s.data.dropWhile jsWhitespace).reverse.dropWhile jsWhitespace).reverse)

/-- Model of JS `String.prototype.split` with the single-character
separator `","`: JS never drops empty fields, and splitting the empty
string yields `[""]`.  Auxiliary recursion carrying the current field
(in reverse). -/
def splitCommaAux : List Char → List Char → List String
  | [], acc => [String.mk acc.reverse]
  | c :: rest, acc =>
      if c = ',' then String.mk acc.reverse :: splitCommaAux rest []
      else splitCommaAux rest (c :: acc)

/-- `s.split(",")` from JS. -/
def splitComma (s : String) : List String :=
  splitCommaAux s.data []

/-- Truthiness of an optional JS string field (`data.error`,
`data.flight_details`): `undefined`/absent and the empty string are falsy,
every other string is truthy. -/
def jsTruthy : Option String → Bool
  | none => false
  | some s => s ≠ ""

/-- Model of the external markdown renderer `marked.parse`.  No claim
depends on the rendered output, so the collaborator is modelled as the
identity transformation on its input text. -/
def markedParse (s : String) : String := s

/-- One message bubble appended by `addMessageToChat`: the author flag
(`isUser`) and the rendered `innerHTML` text. -/
structure ChatTurn where
  isUser : Bool
  text : String
deriving DecidableEq, Repr

/-- The DOM pieces the script reads and writes:
`loading.style.display` (`true` = `block`), `result.style.display`,
`result.classList` membership of `hidden`, `planContent.innerHTML`, the
chat transcript children of `chatMessages`, the `hidden` classes of
`chatBox` and `flightDetails`, `flightContent.innerHTML`, and the chat
input field value. -/
structure DomState where
  loadingDisplay : Bool
  resultDisplay : Bool
  resultHidden : Bool
  planContent : String
  chatMessages : List ChatTurn
  chatBoxHidden : Bool
  flightDetailsHidden : Bool
  flightContent : String
  chatInput : String
deriving DecidableEq, Repr

/-- The module-level snapshot variables declared at the top of the script
(`currentTravelPlan` through `currentStartDate`). -/
structure SnapshotState where
  currentTravelPlan : String
  currentBudget : JSNum
  currentTravelers : JSNum
  currentInterests : List String
  currentIncludeFlights : Bool
  currentSource : String
  currentDestination : String
  currentStartDate : String
deriving DecidableEq, Repr

/-- Full client state: DOM plus snapshot variables. -/
structure ClientState where
  dom : DomState
  snap : SnapshotState
deriving DecidableEq, Repr

/-- Initial values of the snapshot variables (`let currentTravelPlan = "";
let currentBudget = 0; ...`). -/
def initialSnapshot : SnapshotState :=
  { currentTravelPlan := ""
    currentBudget := JSNum.num 0
    currentTravelers := JSNum.num 1
    currentInterests := []
    currentIncludeFlights := false
    currentSource := ""
    currentDestination := ""
    currentStartDate := "" }

/-- Raw form control values read by the submit handler.  `includeFlights`
is `none` when the `includeFlights` element is absent from the page (the
handler guards with `document.getElementById("includeFlights") ? ...checked
: false`). -/
structure FormValues where
  source : String
  destination : String
  startDate : String
  endDate : String
  budget : String
  numTravelers : String
  interests : String
  includeFlights : Option Bool
deriving DecidableEq, Repr

/-- The JSON body sent to `POST /plan-trip`. -/
structure TripPayload where
  source : String
  destination : String
  start_date : String
  end_date : String
  budget : JSNum
  num_travelers : JSNum
  interests : List String
  include_flights : Bool
deriving DecidableEq, Repr

/-- The parsed JSON of a `/plan-trip` response: `success` covers the JS
truthiness of `data.success` (absent/falsy = `false`), `plan` is
`data.plan`, `flight_details` and `error` are `none` when the field is
absent. -/
structure TripData where
  success : Bool
  plan : String
  flight_details : Option String
  error : Option String
deriving DecidableEq, Repr

/-- Outcome of an awaited `fetch` + `response.json()`: either an exception
(network failure or JSON failure, carrying `error.message`) or parsed
data. -/
inductive FetchOutcome (α : Type) where
  | thrown : String → FetchOutcome α
  | value : α → FetchOutcome α
deriving DecidableEq, Repr

/-- Result of one run of the submit handler: the final client state, the
list of outbound `/plan-trip` request bodies issued, and the list of
`alert` messages raised. -/
structure SubmitResult where
  state : ClientState
  requests : List TripPayload
  alerts : List String
deriving DecidableEq, Repr

/-- `interests` parsing from the submit handler:
`value.split(",").map(interest => interest.trim())`. -/
def parseInterests (raw : String) : List String :=
  (splitComma raw).map jsTrim

/-- The request body built by the submit handler from the form values
(lines 18-42 of the script): field-for-field JSON construction. -/
def buildTripPayload (fv : FormValues) : TripPayload :=
  { source := fv.source
    destination := fv.destination
    start_date := fv.startDate
    end_date := fv.endDate
    budget := jsParseFloat fv.budget
    num_travelers := jsParseInt fv.numTravelers
    interests := parseInterests fv.interests
    include_flights := fv.includeFlights.getD false }

/-- The generic error message of the failure branch
(`data.error ? data.error : "..."`). -/
def genericTripError : String := "Error generating travel plan. Please try again."

/-- The `travelForm` submit handler, as a function of the pre-state, the
form values read from the DOM, and the outcome of the awaited fetch.
Mirrors the script step for step: show loading, hide result, parse fields,
issue one request; on `data.success` render the plan, clear the chat
transcript, store the snapshot, show the chat box, toggle the flight
details section on the truthiness of `data.flight_details`, show the
result; otherwise render the error text (or the generic message when
`data.error` is falsy) into the result area and show it; on a thrown error
raise an alert; finally hide loading. -/
def handleSubmit (s : ClientState) (fv : FormValues)
    (outcome : FetchOutcome TripData) : SubmitResult :=
  let d0 := { s.dom with loadingDisplay := true, resultDisplay := false }
  let payload := buildTripPayload fv
  match outcome with
  | FetchOutcome.thrown msg =>
      { state := { s with dom := { d0 with loadingDisplay := false } }
        requests := [payload]
        alerts := ["Error connecting to the server: " ++ msg] }
  | FetchOutcome.value data =>
      if data.success then
        let d1 := { d0 with
          planContent := markedParse data.plan
          chatMessages := []
          chatBoxHidden := false }
        let snap1 : SnapshotState :=
          { currentTravelPlan := data.plan
            currentBudget := payload.budget
            currentTravelers := payload.num_travelers
            currentInterests := payload.interests
            currentIncludeFlights := payload.include_flights
            currentSource := fv.source
            currentDestination := fv.destination
            currentStartDate := fv.startDate }
        let d2 :=
          if jsTruthy data.flight_details then
            { d1 with
              flightContent := markedParse (data.flight_details.getD "")
              flightDetailsHidden := false }
          else
            { d1 with flightDetailsHidden := true }
        let d3 := { d2 with resultDisplay := true, resultHidden := false }
        { state := { dom := { d3 with loadingDisplay := false }, snap := snap1 }
          requests := [payload]
          alerts := [] }
      else
        let errText :=
          if jsTruthy data.error then data.error.getD "" else genericTripError
        let d1 := { d0 with
          planContent := "<span style=\x27color:red;\x27>" ++ errText ++ "</span>"
          resultDisplay := true
          resultHidden := false }
        { state := { s with dom := { d1 with loadingDisplay := false } }
          requests := [payload]
          alerts := [] }

/-- `addMessageToChat(message, isUser)`: append one rendered bubble to the
`chatMessages` container. -/
def addMessageToChat (s : ClientState) (message : String) (isUser : Bool) :
    ClientState :=
  { s with dom := { s.dom with
      chatMessages := s.dom.chatMessages ++ [⟨isUser, markedParse message⟩] } }

/-- The JSON body sent to `POST /chat`: the new question plus the snapshot
fields. -/
structure ChatPayload where
  question : String
  travel_plan : String
  budget : JSNum
  travelers : JSNum
  interests : List String
  include_flights : Bool
  source : String
  destination : String
  start_date : String
deriving DecidableEq, Repr

/-- Parsed JSON of a `/chat` response body (`data.response`). -/
structure ChatData where
  response : String
deriving DecidableEq, Repr

/-- Outcome of the awaited chat fetch: thrown (transport/JSON failure) or a
response with its `response.ok` flag and parsed body. -/
inductive ChatOutcome where
  | thrown : ChatOutcome
  | response : Bool → ChatData → ChatOutcome
deriving DecidableEq, Repr

/-- The chat request body built by `sendMessage` from the trimmed message
and the current snapshot variables. -/
def buildChatPayload (message : String) (snap : SnapshotState) : ChatPayload :=
  { question := message
    travel_plan := snap.currentTravelPlan
    budget := snap.currentBudget
    travelers := snap.currentTravelers
    interests := snap.currentInterests
    include_flights := snap.currentIncludeFlights
    source := snap.currentSource
    destination := snap.currentDestination
    start_date := snap.currentStartDate }

/-- The synchronous prefix of `sendMessage`, up to (and including) issuing
the fetch: read and trim the input; when empty, return with no effect and
no request; otherwise clear the input, append the user bubble, and build
the outgoing chat payload. -/
def sendMessagePre (s : ClientState) : ClientState × Option ChatPayload :=
  let message := jsTrim s.dom.chatInput
  if message = "" then (s, none)
  else
    let s1 := { s with dom := { s.dom with chatInput := "" } }
    let s2 := addMessageToChat s1 message true
    (s2, some (buildChatPayload message s2.snap))

/-- The fallback bubble appended when the chat endpoint answers with a
non-OK status. -/
def chatSorryMessage : String :=
  "Sorry, I couldn\x27t process your question. Please try again."

/-- The fallback bubble appended when the chat fetch throws. -/
def chatErrorMessage : String :=
  "Error connecting to the server. Please try again."

/-- The continuation of `sendMessage` once the awaited fetch settles:
append the response text on `response.ok`, the fixed apology on a non-OK
status, or the fixed connection-error text on a thrown error. -/
def sendMessagePost (s : ClientState) (o : ChatOutcome) : ClientState :=
  match o with
  | ChatOutcome.response true d => addMessageToChat s d.response false
  | ChatOutcome.response false _ => addMessageToChat s chatSorryMessage false
  | ChatOutcome.thrown => addMessageToChat s chatErrorMessage false

end TravelAgent

namespace TravelAgent

/-! ### Sample concrete data used to exercise the model -/

/-- A concrete page state: nothing displayed yet, empty transcript,
snapshot variables at their initial values. -/
def sampleState : ClientState :=
  { dom :=
      { loadingDisplay := false
        resultDisplay := false
        resultHidden := true
        planContent := ""
        chatMessages := []
        chatBoxHidden := true
        flightDetailsHidden := true
        flightContent := ""
        chatInput := "" }
    snap := initialSnapshot }

/-- The concrete form input of the specification scenario. -/
def sampleForm : FormValues :=
  { source := "NYC"
    destination := "Paris"
    startDate := "2024-06-01"
    endDate := "2024-06-10"
    budget := "2000"
    numTravelers := "2"
    interests := "art, food"
    includeFlights := some false }

/-- A concrete successful `/plan-trip` response carrying flight details. -/
def sampleSuccessData : TripData :=
  { success := true
    plan := "Day 1: Louvre."
    flight_details := some "Flight AF 23."
    error := none }

/-- A concrete failure `/plan-trip` response with an error field. -/
def sampleFailureData : TripData :=
  { success := false
    plan := ""
    flight_details := none
    error := some "Invalid dates" }

/-- A page state whose chat input holds a non-empty (after trimming)
message. -/
def sampleChatState : ClientState :=
  { sampleState with dom := { sampleState.dom with chatInput := " What about hotels? " } }

/-- A page state whose chat input is whitespace-only. -/
def sampleWsState : ClientState :=
  { sampleState with dom := { sampleState.dom with chatInput := "   " } }

/-! ### Postconditions named by the claims -/

/-- Postcondition of a successful submission: result visible, transcript
cleared, chat box shown, plan rendered, flight details section shown
exactly when the response carries (truthy) flight details, and exactly one
outbound request issued. -/
def SubmitSuccessPost (s : ClientState) (fv : FormValues) (data : TripData) : Prop :=
  let r := handleSubmit s fv (FetchOutcome.value data)
  r.state.dom.resultDisplay = true ∧
  r.state.dom.resultHidden = false ∧
  r.state.dom.chatMessages = [] ∧
  r.state.dom.chatBoxHidden = false ∧
  r.state.dom.planContent = markedParse data.plan ∧
  r.state.dom.flightDetailsHidden = !(jsTruthy data.flight_details) ∧
  (jsTruthy data.flight_details = true →
    r.state.dom.flightContent = markedParse (data.flight_details.getD "")) ∧
  r.requests = [buildTripPayload fv]

/-- Postcondition of a failed submission with a truthy error field: the
error text shown in the result area (red span), result visible, and the
chat interface untouched (visibility, transcript and snapshot all
unchanged). -/
def SubmitFailurePost (s : ClientState) (fv : FormValues) (data : TripData) : Prop :=
  let r := handleSubmit s fv (FetchOutcome.value data)
  r.state.dom.planContent =
    "<span style=\x27color:red;\x27>" ++ data.error.getD "" ++ "</span>" ∧
  r.state.dom.resultDisplay = true ∧
  r.state.dom.resultHidden = false ∧
  r.state.dom.chatBoxHidden = s.dom.chatBoxHidden ∧
  r.state.dom.chatMessages = s.dom.chatMessages ∧
  r.state.snap = s.snap

/-- Postcondition of `sendMessage` on a non-empty trimmed input: the user
turn is appended synchronously and exactly one request is issued; then,
whatever the outcome of the fetch, exactly one assistant turn is appended,
leaving the transcript two turns longer. -/
def ChatSendSpec (s : ClientState) : Prop :=
  let msg := jsTrim s.dom.chatInput
  let p := sendMessagePre s
  p.2 = some (buildChatPayload msg s.snap) ∧
  p.1.dom.chatMessages = s.dom.chatMessages ++ [ChatTurn.mk true (markedParse msg)] ∧
  p.1.dom.chatInput = "" ∧
  ∀ o : ChatOutcome,
    (∃ t : ChatTurn, t.isUser = false ∧
      (sendMessagePost p.1 o).dom.chatMessages = p.1.dom.chatMessages ++ [t]) ∧
    (sendMessagePost p.1 o).dom.chatMessages.length = s.dom.chatMessages.length + 2

/-- The chat payload is a function of the stored snapshot and the typed
question only; no chat operation modifies the snapshot; a successful
submission stores the snapshot from the submitted form values. -/
def ChatSnapshotSpec (s : ClientState) (o : ChatOutcome) (fv : FormValues)
    (data : TripData) : Prop :=
  (jsTrim s.dom.chatInput ≠ "" →
    (sendMessagePre s).2 = some (buildChatPayload (jsTrim s.dom.chatInput) s.snap)) ∧
  (sendMessagePre s).1.snap = s.snap ∧
  (sendMessagePost s o).snap = s.snap ∧
  (handleSubmit s fv (FetchOutcome.value data)).state.snap =
    { currentTravelPlan := data.plan
      currentBudget := jsParseFloat fv.budget
      currentTravelers := jsParseInt fv.numTravelers
      currentInterests := parseInterests fv.interests
      currentIncludeFlights := fv.includeFlights.getD false
      currentSource := fv.source
      currentDestination := fv.destination
      currentStartDate := fv.startDate }

/-- Frame condition of a failed submission (thrown fetch, or a response
with falsy `success`): the snapshot variables and the chat transcript are
left unchanged. -/
def SubmitFailureFrame (s : ClientState) (fv : FormValues) (msg : String)
    (data : TripData) : Prop :=
  (handleSubmit s fv (FetchOutcome.thrown msg)).state.snap = s.snap ∧
  (handleSubmit s fv (FetchOutcome.thrown msg)).state.dom.chatMessages = s.dom.chatMessages ∧
  (handleSubmit s fv (FetchOutcome.value data)).state.snap = s.snap ∧
  (handleSubmit s fv (FetchOutcome.value data)).state.dom.chatMessages = s.dom.chatMessages

end TravelAgent

namespace TravelAgent

/-- Claim C1: for every trip submission whose response is successful, the
result area becomes visible (display block, `hidden` class removed), the
chat transcript is cleared to empty, the chat interface becomes active,
the plan is rendered, and the flightDetails sub-section is rendered
exactly when the response carries (truthy) flight details, else hidden;
the handler issues exactly one request per submission, so these effects
happen exactly once per successful submission. -/
theorem submit_success_renders_and_activates_chat (s : ClientState)
    (fv : FormValues) (data : TripData) (h : data.success = true) :
    SubmitSuccessPost s fv data := by
  unfold SubmitSuccessPost
  cases hf : jsTruthy data.flight_details <;>
    simp [handleSubmit, h, hf]

/-- Witness for C1: a concrete successful submission from the initial page
state. -/
theorem submit_success_witness :
    sampleSuccessData.success = true ∧
    SubmitSuccessPost sampleState sampleForm sampleSuccessData :=
  ⟨rfl, submit_success_renders_and_activates_chat sampleState sampleForm
    sampleSuccessData rfl⟩

/-- Claim C2: for every trip submission whose response indicates failure
(falsy `success` with a truthy `error` field — the shape through which the
handler sees both a success-false body and a non-OK response carrying a
structured error, since it never inspects the HTTP status), the result
area displays the error text and the chat interface is not activated
(chat box visibility, transcript and snapshot unchanged). -/
theorem submit_failure_shows_error (s : ClientState) (fv : FormValues)
    (data : TripData) (h1 : data.success = false)
    (h2 : jsTruthy data.error = true) :
    SubmitFailurePost s fv data := by
  unfold SubmitFailurePost
  simp [handleSubmit, h1, h2]

/-- Witness for C2: the specification scenario response
`{success: false, error: "Invalid dates"}`. -/
theorem submit_failure_witness :
    sampleFailureData.success = false ∧
    jsTruthy sampleFailureData.error = true ∧
    SubmitFailurePost sampleState sampleForm sampleFailureData :=
  ⟨rfl, by decide, submit_failure_shows_error sampleState sampleForm
    sampleFailureData rfl (by decide)⟩

/-- Claim C3: for every `sendMessage` call with text that is non-empty
after trimming, one user turn is appended synchronously (in the prefix of
the call that runs before the fetch resolves) together with exactly one
outbound chat request, and after resolution exactly one assistant turn is
appended whatever the outcome, so the transcript grows by exactly 2 per
completed send. -/
theorem sendMessage_appends_two_turns (s : ClientState)
    (h : jsTrim s.dom.chatInput ≠ "") : ChatSendSpec s := by
  unfold ChatSendSpec
  refine ⟨?_, ?_, ?_, ?_⟩
  · simp [sendMessagePre, h, addMessageToChat]
  · simp [sendMessagePre, h, addMessageToChat]
  · simp [sendMessagePre, h, addMessageToChat]
  intro o
  cases o with
  | thrown =>
      exact ⟨⟨⟨false, markedParse chatErrorMessage⟩, rfl, rfl⟩, by
        simp [sendMessagePost, addMessageToChat, sendMessagePre, h]⟩
  | response ok d =>
      cases ok with
      | true =>
          exact ⟨⟨⟨false, markedParse d.response⟩, rfl, rfl⟩, by
            simp [sendMessagePost, addMessageToChat, sendMessagePre, h]⟩
      | false =>
          exact ⟨⟨⟨false, markedParse chatSorryMessage⟩, rfl, rfl⟩, by
            simp [sendMessagePost, addMessageToChat, sendMessagePre, h]⟩

/-- Witness for C3: a concrete send of a non-empty message. -/
theorem sendMessage_appends_two_turns_witness :
    jsTrim sampleChatState.dom.chatInput ≠ "" ∧ ChatSendSpec sampleChatState :=
  ⟨by decide, sendMessage_appends_two_turns sampleChatState (by decide)⟩

/-- Claim C4: every submission issues exactly one outbound trip request
whose payload maps 1:1 from the form fields (dates pass through
unmodified, budget through `parseFloat`, traveler count through
`parseInt`, interests comma-split and trimmed); on the scenario input
(budget "2000", numTravelers "2", interests "art, food") the payload
carries budget 2000, num_travelers 2 and interests ["art", "food"]. -/
theorem submit_payload_maps_form_fields (s : ClientState) (fv : FormValues)
    (outcome : FetchOutcome TripData) :
    (handleSubmit s fv outcome).requests = [buildTripPayload fv] ∧
    buildTripPayload fv =
      { source := fv.source
        destination := fv.destination
        start_date := fv.startDate
        end_date := fv.endDate
        budget := jsParseFloat fv.budget
        num_travelers := jsParseInt fv.numTravelers
        interests := parseInterests fv.interests
        include_flights := fv.includeFlights.getD false } ∧
    (buildTripPayload sampleForm).budget = JSNum.num 2000 ∧
    (buildTripPayload sampleForm).num_travelers = JSNum.num 2 ∧
    (buildTripPayload sampleForm).interests = ["art", "food"] := by
  refine ⟨?_, rfl, ?_, by decide, by decide⟩
  · cases outcome with
    | thrown m => rfl
    | value d =>
        by_cases h : d.success = true <;>
          cases hf : jsTruthy d.flight_details <;>
            simp [handleSubmit, h, hf]
  · simp [buildTripPayload, sampleForm, jsParseFloat, jsParseFloatCore,
      parseDigits, jsWhitespace]

/-- Appending a comma to the split input appends one empty field. -/
theorem splitCommaAux_append_comma (l acc : List Char) :
    splitCommaAux (l ++ [',']) acc = splitCommaAux l acc ++ [""] := by
  induction l generalizing acc with
  | nil => simp [splitCommaAux]
  | cons c rest ih =>
      by_cases h : c = ','
      · simp [splitCommaAux, h, ih]
      · simp [splitCommaAux, h, ih]

/-- Claim C5: for every raw interests string, the parsed list is the
comma-split, per-token-trimmed token list with empty tokens kept: a
trailing comma always contributes one extra empty-string entry, as on the
concrete input "art, food,". -/
theorem interests_split_trim_unfiltered (raw : String) :
    parseInterests raw = (splitComma raw).map jsTrim ∧
    parseInterests (raw ++ ",") = parseInterests raw ++ [""] ∧
    parseInterests "art, food," = ["art", "food", ""] := by
  refine ⟨rfl, ?_, by decide⟩
  simp [parseInterests, splitComma, String.data_append, splitCommaAux_append_comma]
  rfl

/-- Claim C6: a `sendMessage` call whose input is empty or
whitespace-only after trimming is a no-op: no request is issued and the
state (transcript included) is untouched. -/
theorem sendMessage_empty_noop (s : ClientState)
    (h : jsTrim s.dom.chatInput = "") : sendMessagePre s = (s, none) := by
  simp [sendMessagePre, h]

/-- Witness for C6: a whitespace-only chat input. -/
theorem sendMessage_empty_noop_witness :
    jsTrim sampleWsState.dom.chatInput = "" ∧
    sendMessagePre sampleWsState = (sampleWsState, none) :=
  ⟨by decide, sendMessage_empty_noop sampleWsState (by decide)⟩

/-- Claim C7: every outgoing chat request is built fresh from the stored
snapshot plus the new question (a function of the snapshot and input
field only, hence unaffected by later form edits); no chat operation
changes the snapshot; and a successful submission captures the snapshot
from the submitted form values. -/
theorem chat_uses_submission_snapshot (s : ClientState) (o : ChatOutcome)
    (fv : FormValues) (data : TripData) (h : data.success = true) :
    ChatSnapshotSpec s o fv data := by
  unfold ChatSnapshotSpec
  refine ⟨?_, ?_, ?_, ?_⟩
  · intro hne
    simp [sendMessagePre, hne, addMessageToChat]
  · by_cases hne : jsTrim s.dom.chatInput = "" <;>
      simp [sendMessagePre, hne, addMessageToChat]
  · cases o with
    | thrown => simp [sendMessagePost, addMessageToChat]
    | response ok d => cases ok <;> simp [sendMessagePost, addMessageToChat]
  · cases hf : jsTruthy data.flight_details <;>
      simp [handleSubmit, h, hf, buildTripPayload]

/-- Witness for C7: concrete chat state and a concrete successful
submission. -/
theorem chat_uses_submission_snapshot_witness :
    sampleSuccessData.success = true ∧
    ChatSnapshotSpec sampleChatState ChatOutcome.thrown sampleForm sampleSuccessData :=
  ⟨rfl, chat_uses_submission_snapshot sampleChatState ChatOutcome.thrown
    sampleForm sampleSuccessData rfl⟩

/-- Counterexample to C8 as stated: the fallback turn appended on a
non-OK chat response differs from the one appended on a thrown fetch, so
the fallback is not one and the same fixed message on any failure. -/
theorem chat_fallback_differs_by_failure_mode :
    (sendMessagePost sampleState (ChatOutcome.response false ⟨""⟩)).dom.chatMessages ≠
    (sendMessagePost sampleState ChatOutcome.thrown).dom.chatMessages := by
  decide

/-- Claim C8 (amended): every chat send failure appends exactly one
assistant turn with a fixed message determined by the failure mode — the
apology text on a non-OK status, the connection-error text on a thrown
fetch — and the handler returns normally in both cases instead of
propagating an error. -/
theorem chat_failure_fixed_fallbacks (s : ClientState) (d : ChatData) :
    (sendMessagePost s (ChatOutcome.response false d)).dom.chatMessages =
      s.dom.chatMessages ++ [ChatTurn.mk false (markedParse chatSorryMessage)] ∧
    (sendMessagePost s ChatOutcome.thrown).dom.chatMessages =
      s.dom.chatMessages ++ [ChatTurn.mk false (markedParse chatErrorMessage)] := by
  exact ⟨rfl, rfl⟩

/-- Claim C9: no validation gate blocks a submission — one request is
issued whatever the form values — and a non-numeric budget such as "abc"
parses to NaN and is forwarded as-is in the payload. -/
theorem submit_no_validation_gate (s : ClientState) (fv : FormValues)
    (outcome : FetchOutcome TripData) :
    (handleSubmit s fv outcome).requests = [buildTripPayload fv] ∧
    (buildTripPayload fv).budget = jsParseFloat fv.budget ∧
    jsParseFloat "abc" = JSNum.nan ∧
    (buildTripPayload { sampleForm with budget := "abc" }).budget = JSNum.nan := by
  refine ⟨?_, rfl, by decide, by decide⟩
  cases outcome with
  | thrown m => rfl
  | value d =>
      by_cases h : d.success = true <;>
        cases hf : jsTruthy d.flight_details <;>
          simp [handleSubmit, h, hf]

/-- Claim C10: a submission that ends in a transport failure or a
business-logic failure leaves every snapshot variable and the chat
transcript unchanged, so subsequent chat messages still use the previous
snapshot. -/
theorem submit_failure_preserves_snapshot (s : ClientState) (fv : FormValues)
    (msg : String) (data : TripData) (h : data.success = false) :
    SubmitFailureFrame s fv msg data := by
  unfold SubmitFailureFrame
  simp [handleSubmit, h]

/-- Witness for C10: a concrete thrown fetch and a concrete
success-false response. -/
theorem submit_failure_preserves_snapshot_witness :
    sampleFailureData.success = false ∧
    SubmitFailureFrame sampleState sampleForm "boom" sampleFailureData :=
  ⟨rfl, submit_failure_preserves_snapshot sampleState sampleForm "boom"
    sampleFailureData rfl⟩

end TravelAgent
